import Mathlib

/-!
Thread primitives of include/sys/thread.h and the HTTP session send vector.

The header include/sys/thread.h wraps the native thread API of two operating
system families behind one set of inline functions.  Each backend is embedded
in a namespace of its own (Posix for the pthread branch, Win for the
OS_WINDOWS branch).  The operating system is a parameter: a record of
transition functions over an abstract kernel state.  Every embedded function
threads that state explicitly and returns, next to its C result, the list of
system calls it issued that act on a thread or on the scheduler, in program
order.  Queries (pthread_self, pthread_equal, pthread_getschedparam,
GetCurrentThreadId, GetThreadPriority, GetLastError) are not recorded.

C out-parameters are embedded as an extra argument holding the old content of
the pointed-to object and an extra result holding the new content.

For each backend a small executable kernel (Posix.linux, Win.win32) is given;
it is used to run the embedded functions on concrete inputs.
-/

namespace Posix

/-- POSIX thread handle, pthread_t of pthread.h, an unsigned integer. -/
abbrev pthread_t := Nat

/-- Thread identity, typedef pthread_t tid_t. -/
abbrev tid_t := pthread_t

/-! enum thread_priority of the pthread branch (thread.h lines 30 to 39). -/

def THREAD_PRIORITY_IDLE : Int := 1
def THREAD_PRIORITY_LOWEST : Int := 25
def THREAD_PRIORITY_BELOW_NORMAL : Int := 40
def THREAD_PRIORITY_NORMAL : Int := 50
def THREAD_PRIORITY_ABOVE_NORMAL : Int := 60
def THREAD_PRIORITY_HIGHEST : Int := 75
def THREAD_PRIORITY_TIME_CRITICAL : Int := 99

/-- The seven named levels of enum thread_priority, in declaration order. -/
def thread_priority : List Int :=
  [THREAD_PRIORITY_IDLE, THREAD_PRIORITY_LOWEST, THREAD_PRIORITY_BELOW_NORMAL,
   THREAD_PRIORITY_NORMAL, THREAD_PRIORITY_ABOVE_NORMAL, THREAD_PRIORITY_HIGHEST,
   THREAD_PRIORITY_TIME_CRITICAL]

/-! Scheduling policies of sched.h (Linux values). -/

def SCHED_OTHER : Int := 0
def SCHED_FIFO : Int := 1
def SCHED_RR : Int := 2

/-! Error numbers of errno.h (Linux values). -/

def EPERM : Int := 1
def ESRCH : Int := 3
def EAGAIN : Int := 11
def EINVAL : Int := 22
def EDEADLK : Int := 35

/-- Thread attribute object pthread_attr_t; thread.h only touches the stack size. -/
structure pthread_attr_t where
  stacksize : Nat
deriving DecidableEq, Repr

/-- Recorded pthread calls of thread.h, with their arguments. -/
inductive Call where
  | pthread_create (attr : pthread_attr_t) (func param : Nat)
  | pthread_detach (thread : pthread_t)
  | pthread_join (thread : pthread_t)
  | pthread_setschedparam (thread : pthread_t) (policy sched_priority : Int)
  | sched_yield
deriving DecidableEq, Repr

/-- The pthread and sched functions thread.h calls, as transitions on a kernel
state.  pthread_create receives the old content of the handle it writes and
returns the new one.  pthread_getschedparam returns its result code together
with the policy and priority it reports. -/
structure OS (σ : Type) where
  pthread_self : σ → pthread_t
  pthread_equal : pthread_t → pthread_t → Int
  pthread_attr_init : pthread_attr_t
  pthread_attr_setstacksize : pthread_attr_t → Nat → Int × pthread_attr_t
  pthread_create : pthread_t → pthread_attr_t → Nat → Nat → σ → Int × pthread_t × σ
  pthread_detach : pthread_t → σ → Int × σ
  pthread_join : pthread_t → σ → Int × σ
  pthread_getschedparam : pthread_t → σ → Int × Int × Int
  pthread_setschedparam : pthread_t → Int → Int → σ → Int × σ
  sched_yield : σ → Int × σ

variable {σ : Type}

/-- The pthread branch of thread_create2 (thread.h lines 79 to 85): initialise
an attribute object, request the stack size (the result of the request is not
inspected), create the thread with that attribute object, return the result of
pthread_create.  The source assigns that result to r without declaring it; r is
embedded as a local int. -/
def thread_create2 (os : OS σ) (thread : pthread_t) (stacksize : Nat) (func param : Nat)
    (s : σ) : Int × pthread_t × σ × List Call :=
  let attr := os.pthread_attr_init
  let attr := (os.pthread_attr_setstacksize attr stacksize).2
  let r := os.pthread_create thread attr func param s
  (r.1, r.2.1, r.2.2, [Call.pthread_create attr func param])

/-- The pthread branch of thread_detach (thread.h line 116). -/
def thread_detach (os : OS σ) (thread : pthread_t) (s : σ) : Int × σ × List Call :=
  let r := os.pthread_detach thread s
  (r.1, r.2, [Call.pthread_detach thread])

/-- The pthread branch of thread_destroy (thread.h lines 102 to 106). -/
def thread_destroy (os : OS σ) (thread : pthread_t) (s : σ) : Int × σ × List Call :=
  if os.pthread_equal (os.pthread_self s) thread ≠ 0 then
    let r := os.pthread_detach thread s
    (r.1, r.2, [Call.pthread_detach thread])
  else
    let r := os.pthread_join thread s
    (r.1, r.2, [Call.pthread_join thread])

/-- The pthread branch of thread_getpriority (thread.h lines 132 to 137).  The
argument priority is the old content of the output location, the second
result its new content. -/
def thread_getpriority (os : OS σ) (thread : pthread_t) (priority : Int) (s : σ) :
    Int × Int :=
  let q := os.pthread_getschedparam thread s
  let r := q.1
  let sched_priority := q.2.2
  (r, if 0 = r then sched_priority else priority)

/-- The pthread branch of thread_setpriority (thread.h lines 147 to 157).  The
local policy starts as SCHED_RR and is overwritten by pthread_getschedparam,
whose result code is not inspected; a failed query leaves the local as it
was. -/
def thread_setpriority (os : OS σ) (thread : pthread_t) (priority : Int) (s : σ) :
    Int × σ × List Call :=
  let q := os.pthread_getschedparam thread s
  let policy := if q.1 = 0 then q.2.1 else SCHED_RR
  let sched_priority := if SCHED_FIFO = policy ∨ SCHED_RR = policy then priority else 0
  let r := os.pthread_setschedparam thread policy sched_priority s
  (r.1, r.2, [Call.pthread_setschedparam thread policy sched_priority])

/-- The pthread branch of thread_self (thread.h line 167). -/
def thread_self (os : OS σ) (s : σ) : tid_t :=
  os.pthread_self s

/-- The pthread branch of thread_getid (thread.h lines 181 to 182); the second
result is the content of the output location after the call. -/
def thread_getid (thread : pthread_t) (_id : tid_t) : Int × tid_t :=
  (0, thread)

/-- The pthread branch of thread_isself (thread.h line 191). -/
def thread_isself (os : OS σ) (thread : pthread_t) (s : σ) : Int :=
  os.pthread_equal (os.pthread_self s) thread

/-- The pthread branch of thread_valid (thread.h line 200). -/
def thread_valid (thread : pthread_t) : Int :=
  if 0 ≠ thread then 1 else 0

/-- The pthread branch of thread_yield (thread.h line 211). -/
def thread_yield (os : OS σ) (s : σ) : Int × σ × List Call :=
  let r := os.sched_yield s
  (r.1, r.2, [Call.sched_yield])

/-! Documented behaviour of the pthread functions, as properties of an OS. -/

/-- Contract of pthread_equal: non-zero exactly on equal handles. -/
def OS.EqualLaw (os : OS σ) : Prop :=
  ∀ a b : pthread_t, os.pthread_equal a b ≠ 0 ↔ a = b

/-- Scheduling table: thread, policy, priority. -/
abbrev SchedTable := List (pthread_t × Int × Int)

/-- Kernel state of the executable model. -/
structure Kernel where
  self : pthread_t
  threads : SchedTable
  privileged : Bool
  nextId : pthread_t
  maxThreads : Nat
deriving DecidableEq, Repr

/-- Policy and priority of a thread of the table. -/
def getSched : SchedTable → pthread_t → Option (Int × Int)
  | [], _ => none
  | (u, pol, pr) :: rest, t => if u = t then some (pol, pr) else getSched rest t

/-- Table with the entry of one thread replaced. -/
def setSched : SchedTable → pthread_t → Int → Int → SchedTable
  | [], _, _, _ => []
  | (u, pol, pr) :: rest, t, pol1, pr1 =>
    if u = t then (u, pol1, pr1) :: rest else (u, pol, pr) :: setSched rest t pol1 pr1

/-- Table without the entries of one thread. -/
def dropThread : SchedTable → pthread_t → SchedTable
  | [], _ => []
  | (u, pol, pr) :: rest, t => if u = t then dropThread rest t else (u, pol, pr) :: dropThread rest t

/-- Linux rule for sched_priority: 1 to 99 under SCHED_FIFO and SCHED_RR, 0
under SCHED_OTHER, other policies are not known to this kernel. -/
def priorityAllowed (policy prio : Int) : Bool :=
  if policy = SCHED_FIFO ∨ policy = SCHED_RR then decide (1 ≤ prio ∧ prio ≤ 99)
  else if policy = SCHED_OTHER then decide (prio = 0)
  else false

/-- Smallest stack size pthread_attr_setstacksize accepts (PTHREAD_STACK_MIN). -/
def PTHREAD_STACK_MIN : Nat := 16384

/-- Executable pthread kernel. -/
def linux : OS Kernel where
  pthread_self := fun k => k.self
  pthread_equal := fun a b => if a = b then 1 else 0
  pthread_attr_init := { stacksize := 8388608 }
  pthread_attr_setstacksize := fun a n =>
    if n < PTHREAD_STACK_MIN then (EINVAL, a) else (0, { a with stacksize := n })
  pthread_create := fun old _attr _func _param k =>
    if k.threads.length < k.maxThreads then
      (0, k.nextId,
        { k with threads := (k.nextId, SCHED_OTHER, 0) :: k.threads, nextId := k.nextId + 1 })
    else (EAGAIN, old, k)
  pthread_detach := fun t k =>
    match getSched k.threads t with
    | none => (ESRCH, k)
    | some _ => (0, k)
  pthread_join := fun t k =>
    match getSched k.threads t with
    | none => (ESRCH, k)
    | some _ => if t = k.self then (EDEADLK, k) else (0, { k with threads := dropThread k.threads t })
  pthread_getschedparam := fun t k =>
    match getSched k.threads t with
    | none => (ESRCH, 0, 0)
    | some (pol, pr) => (0, pol, pr)
  pthread_setschedparam := fun t pol pr k =>
    match getSched k.threads t with
    | none => (ESRCH, k)
    | some _ =>
      if priorityAllowed pol pr = false then (EINVAL, k)
      else if (pol = SCHED_FIFO ∨ pol = SCHED_RR) ∧ k.privileged = false then (EPERM, k)
      else (0, { k with threads := setSched k.threads t pol pr })
  sched_yield := fun k => (0, k)

/-- A kernel state: thread 1 is running and is the caller, thread 7 runs under
SCHED_OTHER, thread 9 under SCHED_RR with priority 20. -/
def demo : Kernel :=
  { self := 1, threads := [(1, SCHED_OTHER, 0), (7, SCHED_OTHER, 0), (9, SCHED_RR, 20)],
    privileged := true, nextId := 10, maxThreads := 4 }

end Posix

namespace Win

/-- Win32 DWORD, an unsigned 32 bit integer. -/
abbrev DWORD := Nat

/-- Win32 HANDLE; NULL is 0. -/
abbrev HANDLE := Nat

/-- The struct pthread_t of the OS_WINDOWS branch (thread.h lines 12 to 16). -/
structure pthread_t where
  id : DWORD
  handle : HANDLE
deriving DecidableEq, Repr

/-- Thread identity, typedef DWORD tid_t. -/
abbrev tid_t := DWORD

/-! Constants of Windows.h used by thread.h. -/

def TRUE : Int := 1
def FALSE : Int := 0
def INFINITE : DWORD := 0xFFFFFFFF
def THREAD_PRIORITY_ERROR_RETURN : Int := 0x7fffffff
def ERROR_INVALID_HANDLE : DWORD := 6
def ERROR_NOT_ENOUGH_MEMORY : DWORD := 8
def ERROR_INVALID_PARAMETER : DWORD := 87
def WAIT_OBJECT_0 : DWORD := 0
def WAIT_FAILED : DWORD := 0xFFFFFFFF

/-- The C conversion (int) of a DWORD: reinterpretation as a signed 32 bit
integer. -/
def int_of_DWORD (d : DWORD) : Int :=
  if d % 2 ^ 32 < 2 ^ 31 then ((d % 2 ^ 32 : Nat) : Int) else ((d % 2 ^ 32 : Nat) : Int) - 2 ^ 32

/-- Recorded Win32 calls of thread.h, with their arguments. -/
inductive Call where
  | _beginthreadex (stack_size : Nat) (func param : Nat)
  | WaitForSingleObjectEx (handle : HANDLE) (milliseconds : DWORD) (alertable : Int)
  | CloseHandle (handle : HANDLE)
  | SetThreadPriority (handle : HANDLE) (priority : Int)
  | SwitchToThread
deriving DecidableEq, Repr

/-- The Win32 and CRT functions thread.h calls, as transitions on a kernel
state.  The function _beginthreadex receives the old content of the thread id
location it writes and returns the new handle and the new content of that
location. -/
structure OS (τ : Type) where
  GetCurrentThreadId : τ → DWORD
  _beginthreadex : Nat → Nat → Nat → DWORD → τ → HANDLE × DWORD × τ
  WaitForSingleObjectEx : HANDLE → DWORD → Int → τ → DWORD × τ
  CloseHandle : HANDLE → τ → Int × τ
  GetThreadPriority : HANDLE → τ → Int × τ
  GetLastError : τ → DWORD
  SetThreadPriority : HANDLE → Int → τ → Int × τ
  SwitchToThread : τ → Int × τ

variable {τ : Type}

/-- The OS_WINDOWS branch of thread_create2 (thread.h lines 70 to 72).  The
parameter stack_size of _beginthreadex is an unsigned int, so the size_t
argument is reduced modulo 2 ^ 32. -/
def thread_create2 (os : OS τ) (thread : pthread_t) (stacksize : Nat) (func param : Nat)
    (s : τ) : Int × pthread_t × τ × List Call :=
  let r := os._beginthreadex (stacksize % 2 ^ 32) func param thread.id s
  let thread : pthread_t := { id := r.2.1, handle := r.1 }
  (if 0 = thread.handle then -1 else 0, thread, r.2.2,
    [Call._beginthreadex (stacksize % 2 ^ 32) func param])

/-- The OS_WINDOWS branch of thread_detach (thread.h lines 113 to 114). -/
def thread_detach (os : OS τ) (thread : pthread_t) (s : τ) : Int × τ × List Call :=
  let c := os.CloseHandle thread.handle s
  (0, c.2, [Call.CloseHandle thread.handle])

/-- The OS_WINDOWS branch of thread_destroy (thread.h lines 97 to 100). -/
def thread_destroy (os : OS τ) (thread : pthread_t) (s : τ) : Int × τ × List Call :=
  let w : τ × List Call :=
    if thread.id ≠ os.GetCurrentThreadId s then
      ((os.WaitForSingleObjectEx thread.handle INFINITE TRUE s).2,
        [Call.WaitForSingleObjectEx thread.handle INFINITE TRUE])
    else (s, [])
  let c := os.CloseHandle thread.handle w.1
  (0, c.2, w.2 ++ [Call.CloseHandle thread.handle])

/-- The OS_WINDOWS branch of thread_getpriority (thread.h lines 125 to 130).
The argument priority is the old content of the output location, the second
result its new content. -/
def thread_getpriority (os : OS τ) (thread : pthread_t) (priority : Int) (s : τ) :
    Int × Int × τ :=
  let g := os.GetThreadPriority thread.handle s
  let r := g.1
  if THREAD_PRIORITY_ERROR_RETURN = r then (int_of_DWORD (os.GetLastError g.2), priority, g.2)
  else (0, r, g.2)

/-- The OS_WINDOWS branch of thread_setpriority (thread.h lines 144 to 145). -/
def thread_setpriority (os : OS τ) (thread : pthread_t) (priority : Int) (s : τ) :
    Int × τ × List Call :=
  let r := os.SetThreadPriority thread.handle priority s
  (if TRUE = r.1 then 1 else 0, r.2, [Call.SetThreadPriority thread.handle priority])

/-- The OS_WINDOWS branch of thread_self (thread.h lines 164 to 165). -/
def thread_self (os : OS τ) (s : τ) : tid_t :=
  os.GetCurrentThreadId s

/-- The OS_WINDOWS branch of thread_getid (thread.h lines 174 to 179); the
second result is the content of the output location after the call. -/
def thread_getid (thread : pthread_t) (_id : tid_t) : Int × tid_t :=
  (0, thread.id)

/-- The OS_WINDOWS branch of thread_isself (thread.h line 189). -/
def thread_isself (os : OS τ) (thread : pthread_t) (s : τ) : Int :=
  if thread.id = os.GetCurrentThreadId s then 1 else 0

/-- The OS_WINDOWS branch of thread_valid (thread.h line 198). -/
def thread_valid (thread : pthread_t) : Int :=
  if 0 ≠ thread.id then 1 else 0

/-- The OS_WINDOWS branch of thread_yield (thread.h line 209). -/
def thread_yield (os : OS τ) (s : τ) : Int × τ × List Call :=
  let r := os.SwitchToThread s
  (r.1, r.2, [Call.SwitchToThread])

/-- Contract of GetThreadPriority and GetLastError: when the query returns
THREAD_PRIORITY_ERROR_RETURN the last error code is a non-zero DWORD. -/
def OS.LastErrorLaw (os : OS τ) : Prop :=
  ∀ (h : HANDLE) (s : τ), (os.GetThreadPriority h s).1 = THREAD_PRIORITY_ERROR_RETURN →
    0 < os.GetLastError (os.GetThreadPriority h s).2 ∧
      os.GetLastError (os.GetThreadPriority h s).2 < 2 ^ 32

/-! An executable kernel for the Win32 interface. -/

/-- Table of open thread handles: handle, thread id, priority. -/
abbrev HandleTable := List (HANDLE × DWORD × Int)

/-- Kernel state of the executable model. -/
structure Kernel where
  current : DWORD
  handles : HandleTable
  lastError : DWORD
  nextId : DWORD
  maxThreads : Nat
deriving DecidableEq, Repr

/-- Priority of the thread behind a handle. -/
def getPrio : HandleTable → HANDLE → Option Int
  | [], _ => none
  | (u, _, pr) :: rest, h => if u = h then some pr else getPrio rest h

/-- Table with the priority behind one handle replaced. -/
def setPrio : HandleTable → HANDLE → Int → HandleTable
  | [], _, _ => []
  | (u, i, pr) :: rest, h, pr1 =>
    if u = h then (u, i, pr1) :: rest else (u, i, pr) :: setPrio rest h pr1

/-- Table without one handle. -/
def closeEntry : HandleTable → HANDLE → HandleTable
  | [], _ => []
  | (u, i, pr) :: rest, h => if u = h then rest else (u, i, pr) :: closeEntry rest h

/-- Priority values SetThreadPriority accepts outside the realtime class. -/
def priorityAllowed (p : Int) : Bool :=
  decide (p = -15 ∨ p = -2 ∨ p = -1 ∨ p = 0 ∨ p = 1 ∨ p = 2 ∨ p = 15)

/-- Executable Win32 kernel.  A table entry whose priority field holds
THREAD_PRIORITY_ERROR_RETURN is not a thread priority; a query of it fails. -/
def win32 : OS Kernel where
  GetCurrentThreadId := fun k => k.current
  _beginthreadex := fun _stack _func _param old k =>
    if k.handles.length < k.maxThreads then
      (4 * k.nextId, k.nextId,
        { k with handles := (4 * k.nextId, k.nextId, 0) :: k.handles, nextId := k.nextId + 1 })
    else (0, old, k)
  WaitForSingleObjectEx := fun h _ms _alertable k =>
    match getPrio k.handles h with
    | none => (WAIT_FAILED, { k with lastError := ERROR_INVALID_HANDLE })
    | some _ => (WAIT_OBJECT_0, k)
  CloseHandle := fun h k =>
    match getPrio k.handles h with
    | none => (FALSE, { k with lastError := ERROR_INVALID_HANDLE })
    | some _ => (TRUE, { k with handles := closeEntry k.handles h })
  GetThreadPriority := fun h k =>
    match getPrio k.handles h with
    | none => (THREAD_PRIORITY_ERROR_RETURN, { k with lastError := ERROR_INVALID_HANDLE })
    | some pr =>
      if pr = THREAD_PRIORITY_ERROR_RETURN then
        (THREAD_PRIORITY_ERROR_RETURN, { k with lastError := ERROR_INVALID_HANDLE })
      else (pr, k)
  GetLastError := fun k => k.lastError
  SetThreadPriority := fun h p k =>
    match getPrio k.handles h with
    | none => (FALSE, { k with lastError := ERROR_INVALID_HANDLE })
    | some _ =>
      if priorityAllowed p = false then (FALSE, { k with lastError := ERROR_INVALID_PARAMETER })
      else (TRUE, { k with handles := setPrio k.handles h p })
  SwitchToThread := fun k => (TRUE, k)

/-- A kernel state: the caller is thread 100 (handle 400), thread 101 (handle
404) runs at priority -15. -/
def demo : Kernel :=
  { current := 100, handles := [(400, 100, 0), (404, 101, -15)], lastError := 0,
    nextId := 102, maxThreads := 4 }

end Win

namespace Http

/-- One octet of an outbound buffer. -/
abbrev Byte := Fin 256

/-- Modelled from the spec: socket_bufvec_t is declared in sys/sock.h, which is
not among the sources.  It is one segment of a scatter-gather vector, a base
pointer and a length; the segment is embedded as the run of bytes it
addresses, so that moving the base forward by n and shortening the length by
n is dropping the first n bytes. -/
structure socket_bufvec_t where
  bytes : List Byte
deriving DecidableEq, Repr

/-- The send buffer vector of struct http_session_t (http-server-internal.h
lines 20 to 25).  The field vec points at the segments in use, held either in
the inline array vec4 or in the heap array; it is embedded as the list of
those segments, whatever the backing store. -/
structure http_session_t where
  vec_count : Nat
  vec_capacity : Nat
  vec : List socket_bufvec_t
deriving DecidableEq, Repr

/-- Bytes addressed by a buffer vector, in order. -/
def vec_bytes : List socket_bufvec_t → List Byte
  | [] => []
  | v :: vs => v.bytes ++ vec_bytes vs

/-- Number of bytes a buffer vector requests to send. -/
def vec_total : List socket_bufvec_t → Nat
  | [] => 0
  | v :: vs => v.bytes.length + vec_total vs

/-- Modelled from the spec: the write cursor advance of the session send path
(the session implementation is not among the sources): after n bytes were
written, skip the segments that were consumed in full and trim the front of
the segment that was consumed in part. -/
def vec_advance : List socket_bufvec_t → Nat → List socket_bufvec_t
  | [], _ => []
  | v :: vs, n =>
    if v.bytes.length ≤ n then vec_advance vs (n - v.bytes.length)
    else { bytes := v.bytes.drop n } :: vs

/-- Modelled from the spec: the session after a completion of n bytes, its
vector advanced and its segment count updated. -/
def http_session_advance (session : http_session_t) (n : Nat) : http_session_t :=
  let vec := vec_advance session.vec n
  { session with vec := vec, vec_count := vec.length }

/-- One completed async_send: the vector that was submitted and the byte count
its completion reported. -/
structure Submission where
  vec : List socket_bufvec_t
  bytes_written : Nat
deriving DecidableEq, Repr

/-- Bytes the transport took from one submission: the first bytes_written
bytes of the submitted vector. -/
def Submission.delivered (sub : Submission) : List Byte :=
  (vec_bytes sub.vec).take sub.bytes_written

/-- Modelled from the spec: the send loop of the session (the session
implementation is not among the sources).  The vector is submitted as one
async_send; on a completion that is short of the requested total the session
advances its cursor and submits the tail again, and it stops once a completion
covers the whole submitted vector.  The argument lists the byte counts of the
successive completions; the result lists the completed submissions. -/
def http_session_send (session : http_session_t) : List Nat → List Submission
  | [] => []
  | n :: ns =>
    { vec := session.vec, bytes_written := n } ::
      (if n < vec_total session.vec then http_session_send (http_session_advance session n) ns
       else [])

/-- Bytes the transport received over all submissions, in order. -/
def wire : List Submission → List Byte
  | [] => []
  | sub :: subs => sub.delivered ++ wire subs

/-- A response of three segments: status line and headers, then two body
segments. -/
def demoSession : http_session_t :=
  { vec_count := 3, vec_capacity := 4,
    vec := [{ bytes := [72, 84, 84, 80] }, { bytes := [111, 107] }, { bytes := [13, 10, 33] }] }

end Http

/-! The executable kernels satisfy the documented contracts. -/

theorem Posix.linux_equalLaw : Posix.linux.EqualLaw := by
  intro a b
  by_cases hab : a = b <;> simp [Posix.linux, hab]

theorem Win.win32_lastErrorLaw : Win.win32.LastErrorLaw := by
  intro h k hr
  simp only [Win.win32] at hr ⊢
  cases hg : Win.getPrio k.handles h with
  | none => simp [Win.ERROR_INVALID_HANDLE]
  | some pr =>
    simp only [hg] at hr ⊢
    by_cases hp : pr = Win.THREAD_PRIORITY_ERROR_RETURN
    · simp [hp, Win.ERROR_INVALID_HANDLE]
    · simp [hp] at hr

/-! Buffer vector lemmas. -/

theorem Http.vec_total_eq_length (vec : List Http.socket_bufvec_t) :
    Http.vec_total vec = (Http.vec_bytes vec).length := by
  induction vec with
  | nil => rfl
  | cons v vs ih => simp [Http.vec_total, Http.vec_bytes, ih]

theorem Http.vec_bytes_advance (vec : List Http.socket_bufvec_t) (n : Nat) :
    Http.vec_bytes (Http.vec_advance vec n) = (Http.vec_bytes vec).drop n := by
  induction vec generalizing n with
  | nil => simp [Http.vec_advance, Http.vec_bytes]
  | cons v vs ih =>
    by_cases hle : v.bytes.length ≤ n
    · have hn : n = v.bytes.length + (n - v.bytes.length) := by omega
      simp only [Http.vec_advance, hle, if_true, Http.vec_bytes, ih]
      conv_rhs => rw [hn, List.drop_append]
    · have hlt : n ≤ v.bytes.length := by omega
      simp only [Http.vec_advance, hle, if_false, Http.vec_bytes]
      rw [List.drop_append_of_le_length hlt]

/-! Claims. -/

/-- C1: thread_destroy called by the thread the handle identifies does exactly
what thread_detach does (same result, same final kernel state, same recorded
calls, so no join or wait is issued); called by any other thread it issues
pthread_join and no detach on the pthread backend, and WaitForSingleObjectEx
followed by CloseHandle on the Windows backend. -/
theorem thread_destroy_detach_self_wait_other {σ τ : Type} (po : Posix.OS σ) (wo : Win.OS τ)
    (heq : po.EqualLaw) (h : Posix.pthread_t) (s : σ) (w : Win.pthread_t) (k : τ) :
    Posix.thread_destroy po h s =
      (if po.pthread_self s = h then Posix.thread_detach po h s
       else ((po.pthread_join h s).1, (po.pthread_join h s).2, [Posix.Call.pthread_join h])) ∧
    (Posix.thread_detach po h s).2.2 = [Posix.Call.pthread_detach h] ∧
    Win.thread_destroy wo w k =
      (if wo.GetCurrentThreadId k = w.id then Win.thread_detach wo w k
       else (0,
         (wo.CloseHandle w.handle
           (wo.WaitForSingleObjectEx w.handle Win.INFINITE Win.TRUE k).2).2,
         [Win.Call.WaitForSingleObjectEx w.handle Win.INFINITE Win.TRUE,
          Win.Call.CloseHandle w.handle])) ∧
    (Win.thread_detach wo w k).2.2 = [Win.Call.CloseHandle w.handle] := by
  refine ⟨?_, rfl, ?_, rfl⟩
  · by_cases hs : po.pthread_self s = h
    · have hne : po.pthread_equal (po.pthread_self s) h ≠ 0 := (heq _ _).mpr hs
      simp [Posix.thread_destroy, Posix.thread_detach, hs, hne]
      exact fun h0 => absurd h0 (hs ▸ hne)
    · have hz : ¬ po.pthread_equal (po.pthread_self s) h ≠ 0 := fun hne => hs ((heq _ _).mp hne)
      simp only [Posix.thread_destroy, hz, hs, if_false]
  · by_cases hk : wo.GetCurrentThreadId k = w.id
    · simp [Win.thread_destroy, Win.thread_detach, hk]
    · have hk2 : w.id ≠ wo.GetCurrentThreadId k := fun e => hk e.symm
      simp [Win.thread_destroy, hk, hk2]

/-- Witness of C1: thread 1 destroys itself on the pthread kernel, thread 100
destroys thread 101 on the Win32 kernel. -/
theorem thread_destroy_detach_self_wait_other_witness :
    Posix.linux.EqualLaw ∧
    (Posix.thread_destroy Posix.linux 1 Posix.demo =
      (if Posix.linux.pthread_self Posix.demo = 1 then Posix.thread_detach Posix.linux 1 Posix.demo
       else ((Posix.linux.pthread_join 1 Posix.demo).1, (Posix.linux.pthread_join 1 Posix.demo).2,
         [Posix.Call.pthread_join 1])) ∧
    (Posix.thread_detach Posix.linux 1 Posix.demo).2.2 = [Posix.Call.pthread_detach 1] ∧
    Win.thread_destroy Win.win32 ⟨101, 404⟩ Win.demo =
      (if Win.win32.GetCurrentThreadId Win.demo = (⟨101, 404⟩ : Win.pthread_t).id then
         Win.thread_detach Win.win32 ⟨101, 404⟩ Win.demo
       else (0,
         (Win.win32.CloseHandle (⟨101, 404⟩ : Win.pthread_t).handle
           (Win.win32.WaitForSingleObjectEx (⟨101, 404⟩ : Win.pthread_t).handle
             Win.INFINITE Win.TRUE Win.demo).2).2,
         [Win.Call.WaitForSingleObjectEx (⟨101, 404⟩ : Win.pthread_t).handle
            Win.INFINITE Win.TRUE,
          Win.Call.CloseHandle (⟨101, 404⟩ : Win.pthread_t).handle])) ∧
    (Win.thread_detach Win.win32 ⟨101, 404⟩ Win.demo).2.2 =
      [Win.Call.CloseHandle (⟨101, 404⟩ : Win.pthread_t).handle]) :=
  ⟨Posix.linux_equalLaw,
    thread_destroy_detach_self_wait_other Posix.linux Win.win32 Posix.linux_equalLaw
      1 Posix.demo ⟨101, 404⟩ Win.demo⟩

/-- C7: thread_isself is non-zero exactly when the id stored by thread_getid
equals thread_self of the caller, thread_getid returns 0, and on the Windows
backend the answer depends on the id field only: a handle with the same id and
any HANDLE value gives the same answer. -/
theorem thread_isself_iff_getid_eq_self {σ τ : Type} (po : Posix.OS σ) (wo : Win.OS τ)
    (heq : po.EqualLaw) (h : Posix.pthread_t) (id0 : Posix.tid_t) (s : σ)
    (w : Win.pthread_t) (wid0 : Win.tid_t) (k : τ) :
    (Posix.thread_isself po h s ≠ 0 ↔ (Posix.thread_getid h id0).2 = Posix.thread_self po s) ∧
    (Posix.thread_getid h id0).1 = 0 ∧
    (Win.thread_isself wo w k ≠ 0 ↔ (Win.thread_getid w wid0).2 = Win.thread_self wo k) ∧
    (Win.thread_getid w wid0).1 = 0 ∧
    (∀ other : Win.HANDLE,
      Win.thread_isself wo { id := w.id, handle := other } k = Win.thread_isself wo w k) := by
  refine ⟨?_, rfl, ?_, rfl, fun _ => rfl⟩
  · simp only [Posix.thread_isself, Posix.thread_getid, Posix.thread_self]
    rw [heq]
    exact eq_comm
  · simp only [Win.thread_isself, Win.thread_getid, Win.thread_self]
    by_cases hk : w.id = wo.GetCurrentThreadId k <;> simp [hk]

/-- Witness of C7: thread 1 asks about thread 7 on the pthread kernel, thread
100 asks about its own handle on the Win32 kernel. -/
theorem thread_isself_iff_getid_eq_self_witness :
    Posix.linux.EqualLaw ∧
    ((Posix.thread_isself Posix.linux 7 Posix.demo ≠ 0 ↔
        (Posix.thread_getid 7 0).2 = Posix.thread_self Posix.linux Posix.demo) ∧
    (Posix.thread_getid 7 0).1 = 0 ∧
    (Win.thread_isself Win.win32 ⟨100, 400⟩ Win.demo ≠ 0 ↔
        (Win.thread_getid ⟨100, 400⟩ 0).2 = Win.thread_self Win.win32 Win.demo) ∧
    (Win.thread_getid ⟨100, 400⟩ 0).1 = 0 ∧
    (∀ other : Win.HANDLE,
      Win.thread_isself Win.win32 { id := (⟨100, 400⟩ : Win.pthread_t).id, handle := other }
        Win.demo = Win.thread_isself Win.win32 ⟨100, 400⟩ Win.demo)) :=
  ⟨Posix.linux_equalLaw,
    thread_isself_iff_getid_eq_self Posix.linux Win.win32 Posix.linux_equalLaw
      7 0 Posix.demo ⟨100, 400⟩ 0 Win.demo⟩

/-- C8: thread_valid returns 1 for a non-zero handle value and 0 for a zero
one (the pthread_t on the pthread backend, the id field on the Windows
backend); it takes no kernel state, and on the Windows backend the HANDLE field
does not enter the result. -/
theorem thread_valid_iff_nonzero (h : Posix.pthread_t) (w : Win.pthread_t) :
    Posix.thread_valid h = (if h = 0 then 0 else 1) ∧
    Win.thread_valid w = (if w.id = 0 then 0 else 1) ∧
    Posix.thread_valid 0 = 0 ∧
    (∀ other : Win.HANDLE, Win.thread_valid { id := 0, handle := other } = 0) ∧
    (∀ other : Win.HANDLE, Win.thread_valid { id := w.id, handle := other } = Win.thread_valid w) := by
  refine ⟨?_, ?_, rfl, fun _ => rfl, fun _ => rfl⟩
  · by_cases hh : h = 0
    · simp [Posix.thread_valid, hh]
    · have h0 : ¬ 0 = h := fun e => hh e.symm
      simp [Posix.thread_valid, hh, h0]
  · by_cases hw : w.id = 0
    · simp [Win.thread_valid, hw]
    · have h0 : ¬ 0 = w.id := fun e => hw e.symm
      simp [Win.thread_valid, hw, h0]

/-- C10: thread_getpriority returns 0 and stores the reported priority when the
query of the operating system succeeds; when the query fails it returns the
non-zero error code and leaves the output location as it was, on both
backends. -/
theorem thread_getpriority_frame {σ τ : Type} (po : Posix.OS σ) (wo : Win.OS τ)
    (hle : wo.LastErrorLaw) (h : Posix.pthread_t) (q : Int) (s : σ)
    (w : Win.pthread_t) (k : τ) :
    ((po.pthread_getschedparam h s).1 = 0 →
      Posix.thread_getpriority po h q s = (0, (po.pthread_getschedparam h s).2.2)) ∧
    ((po.pthread_getschedparam h s).1 ≠ 0 →
      Posix.thread_getpriority po h q s = ((po.pthread_getschedparam h s).1, q)) ∧
    ((wo.GetThreadPriority w.handle k).1 ≠ Win.THREAD_PRIORITY_ERROR_RETURN →
      (Win.thread_getpriority wo w q k).1 = 0 ∧
      (Win.thread_getpriority wo w q k).2.1 = (wo.GetThreadPriority w.handle k).1) ∧
    ((wo.GetThreadPriority w.handle k).1 = Win.THREAD_PRIORITY_ERROR_RETURN →
      (Win.thread_getpriority wo w q k).1
        = Win.int_of_DWORD (wo.GetLastError (wo.GetThreadPriority w.handle k).2) ∧
      (Win.thread_getpriority wo w q k).1 ≠ 0 ∧
      (Win.thread_getpriority wo w q k).2.1 = q) := by
  refine ⟨?_, ?_, ?_, ?_⟩
  · intro h0
    simp [Posix.thread_getpriority, h0]
  · intro h0
    have h1 : ¬ 0 = (po.pthread_getschedparam h s).1 := fun e => h0 e.symm
    simp [Posix.thread_getpriority, h1]
  · intro h0
    have h1 : ¬ Win.THREAD_PRIORITY_ERROR_RETURN = (wo.GetThreadPriority w.handle k).1 :=
      fun e => h0 e.symm
    simp [Win.thread_getpriority, h1]
  · intro h0
    obtain ⟨hpos, hlt⟩ := hle w.handle k h0
    have hne : Win.int_of_DWORD (wo.GetLastError (wo.GetThreadPriority w.handle k).2) ≠ 0 := by
      generalize wo.GetLastError (wo.GetThreadPriority w.handle k).2 = e at hpos hlt
      unfold Win.int_of_DWORD
      rw [Nat.mod_eq_of_lt hlt]
      split
      · intro hz
        have hz0 : e = 0 := by exact_mod_cast hz
        exact absurd hz0 (Nat.pos_iff_ne_zero.mp hpos)
      · intro hz
        have hlt2 : (e : Int) < 2 ^ 32 := by exact_mod_cast hlt
        linarith
    simp only [Win.thread_getpriority, h0, if_true]
    exact ⟨trivial, hne, trivial⟩

/-- Witness of C10: a successful query of thread 9 on the pthread kernel, a
failing query through the stale handle 408 on the Win32 kernel. -/
theorem thread_getpriority_frame_witness :
    Win.win32.LastErrorLaw ∧
    (((Posix.linux.pthread_getschedparam 9 Posix.demo).1 = 0 →
      Posix.thread_getpriority Posix.linux 9 (-1) Posix.demo
        = (0, (Posix.linux.pthread_getschedparam 9 Posix.demo).2.2)) ∧
    ((Posix.linux.pthread_getschedparam 9 Posix.demo).1 ≠ 0 →
      Posix.thread_getpriority Posix.linux 9 (-1) Posix.demo
        = ((Posix.linux.pthread_getschedparam 9 Posix.demo).1, -1)) ∧
    ((Win.win32.GetThreadPriority (⟨101, 408⟩ : Win.pthread_t).handle Win.demo).1
        ≠ Win.THREAD_PRIORITY_ERROR_RETURN →
      (Win.thread_getpriority Win.win32 ⟨101, 408⟩ (-1) Win.demo).1 = 0 ∧
      (Win.thread_getpriority Win.win32 ⟨101, 408⟩ (-1) Win.demo).2.1
        = (Win.win32.GetThreadPriority (⟨101, 408⟩ : Win.pthread_t).handle Win.demo).1) ∧
    ((Win.win32.GetThreadPriority (⟨101, 408⟩ : Win.pthread_t).handle Win.demo).1
        = Win.THREAD_PRIORITY_ERROR_RETURN →
      (Win.thread_getpriority Win.win32 ⟨101, 408⟩ (-1) Win.demo).1
        = Win.int_of_DWORD (Win.win32.GetLastError
            (Win.win32.GetThreadPriority (⟨101, 408⟩ : Win.pthread_t).handle Win.demo).2) ∧
      (Win.thread_getpriority Win.win32 ⟨101, 408⟩ (-1) Win.demo).1 ≠ 0 ∧
      (Win.thread_getpriority Win.win32 ⟨101, 408⟩ (-1) Win.demo).2.1 = -1)) :=
  ⟨Win.win32_lastErrorLaw,
    thread_getpriority_frame Posix.linux Win.win32 Win.win32_lastErrorLaw
      9 (-1) Posix.demo ⟨101, 408⟩ Win.demo⟩

/-- C5: thread_create2 returns a non-zero code exactly when the operating
system did not create the thread (pthread_create returned non-zero,
_beginthreadex returned a null handle), and returns 0 exactly when the thread
was created, the handle written by the operating system being the one stored
through the thread pointer.  The kernel state it leaves is the one the creating
call leaves, and that call (pthread_create with the attribute object carrying
the stack size request, _beginthreadex with the stack size) is the one call it
issues, so the thread reported is the thread the operating system created. -/
theorem thread_create2_fails_iff_not_created {σ τ : Type} (po : Posix.OS σ) (wo : Win.OS τ)
    (t : Posix.pthread_t) (w : Win.pthread_t) (stacksize func param : Nat) (s : σ) (k : τ) :
    ((Posix.thread_create2 po t stacksize func param s).1 ≠ 0 ↔
      (po.pthread_create t (po.pthread_attr_setstacksize po.pthread_attr_init stacksize).2
        func param s).1 ≠ 0) ∧
    ((Posix.thread_create2 po t stacksize func param s).1 = 0 ↔
      (po.pthread_create t (po.pthread_attr_setstacksize po.pthread_attr_init stacksize).2
        func param s).1 = 0 ∧
      (Posix.thread_create2 po t stacksize func param s).2.1 =
        (po.pthread_create t (po.pthread_attr_setstacksize po.pthread_attr_init stacksize).2
          func param s).2.1) ∧
    ((Win.thread_create2 wo w stacksize func param k).1 ≠ 0 ↔
      (wo._beginthreadex (stacksize % 2 ^ 32) func param w.id k).1 = 0) ∧
    ((Win.thread_create2 wo w stacksize func param k).1 = 0 ↔
      (wo._beginthreadex (stacksize % 2 ^ 32) func param w.id k).1 ≠ 0 ∧
      (Win.thread_create2 wo w stacksize func param k).2.1 =
        { id := (wo._beginthreadex (stacksize % 2 ^ 32) func param w.id k).2.1,
          handle := (wo._beginthreadex (stacksize % 2 ^ 32) func param w.id k).1 }) ∧
    (Posix.thread_create2 po t stacksize func param s).2.2.1 =
      (po.pthread_create t (po.pthread_attr_setstacksize po.pthread_attr_init stacksize).2
        func param s).2.2 ∧
    (Posix.thread_create2 po t stacksize func param s).2.2.2 =
      [Posix.Call.pthread_create
        (po.pthread_attr_setstacksize po.pthread_attr_init stacksize).2 func param] ∧
    (Win.thread_create2 wo w stacksize func param k).2.2.1 =
      (wo._beginthreadex (stacksize % 2 ^ 32) func param w.id k).2.2 ∧
    (Win.thread_create2 wo w stacksize func param k).2.2.2 =
      [Win.Call._beginthreadex (stacksize % 2 ^ 32) func param] := by
  refine ⟨Iff.rfl, ?_, ?_, ?_, rfl, rfl, rfl, rfl⟩
  · simp [Posix.thread_create2]
  · simp only [Win.thread_create2]
    constructor
    · intro hne
      by_contra hb
      exact hne (if_neg fun e => hb e.symm)
    · intro hb
      rw [if_pos hb.symm]
      decide
  · simp only [Win.thread_create2]
    constructor
    · intro hz
      refine ⟨fun hb => ?_, trivial⟩
      rw [if_pos hb.symm] at hz
      exact absurd hz (by decide)
    · intro hb
      exact if_neg fun e => hb.1 e.symm

/-- C3: for every outbound buffer vector and every sequence of completion byte
counts that sums to the total length of the vector, the bytes the transport
takes over all submissions of the send loop (cursor advance and resubmission
of the tail after each short write) are exactly the enqueued bytes, in order,
none twice and none missing. -/
theorem short_writes_deliver_enqueued_bytes (session : Http.http_session_t) (ns : List Nat)
    (hsum : ns.sum = Http.vec_total session.vec) :
    Http.wire (Http.http_session_send session ns) = Http.vec_bytes session.vec := by
  induction ns generalizing session with
  | nil =>
    have hlen : (Http.vec_bytes session.vec).length = 0 := by
      rw [← Http.vec_total_eq_length]; simpa using hsum.symm
    simp [Http.http_session_send, Http.wire, List.length_eq_zero.mp hlen]
  | cons n ns ih =>
    have hsum2 : n + ns.sum = Http.vec_total session.vec := by simpa using hsum
    by_cases hlt : n < Http.vec_total session.vec
    · have htail : ns.sum = Http.vec_total (Http.http_session_advance session n).vec := by
        simp only [Http.http_session_advance, Http.vec_total_eq_length, Http.vec_bytes_advance,
          List.length_drop]
        rw [← Http.vec_total_eq_length]; omega
      have hrec := ih (Http.http_session_advance session n) htail
      simp only [Http.http_session_send, hlt, if_true, Http.wire, Http.Submission.delivered, hrec]
      simp [Http.http_session_advance, Http.vec_bytes_advance]
    · have hn : (Http.vec_bytes session.vec).length ≤ n := by
        rw [← Http.vec_total_eq_length]; omega
      simp [Http.http_session_send, hlt, Http.wire, Http.Submission.delivered,
        List.take_of_length_le hn]

/-- Witness of C3: a three segment response of nine bytes flushed by the
completions 1, 0, 4, 2, 2. -/
theorem short_writes_deliver_enqueued_bytes_witness :
    [1, 0, 4, 2, 2].sum = Http.vec_total Http.demoSession.vec ∧
    Http.wire (Http.http_session_send Http.demoSession [1, 0, 4, 2, 2])
      = Http.vec_bytes Http.demoSession.vec :=
  ⟨by decide, short_writes_deliver_enqueued_bytes Http.demoSession [1, 0, 4, 2, 2] (by decide)⟩

/-- C4, the code at the failing input: on the Win32 kernel SetThreadPriority
accepts priority 2 for the open handle 404 and thread_setpriority returns 1;
it refuses the stale handle 408 and thread_setpriority returns 0.  The pthread
branch returns the result of pthread_setschedparam, 0 on acceptance, as
thread_getpriority and thread_create2 do on both backends. -/
theorem thread_setpriority_windows_result_inverted :
    (Win.win32.SetThreadPriority 404 2 Win.demo).1 = Win.TRUE ∧
    (Win.thread_setpriority Win.win32 ⟨101, 404⟩ 2 Win.demo).1 = 1 ∧
    (Win.thread_getpriority Win.win32 ⟨101, 404⟩ 0
      (Win.thread_setpriority Win.win32 ⟨101, 404⟩ 2 Win.demo).2.1).1 = 0 ∧
    (Win.win32.SetThreadPriority 408 2 Win.demo).1 = Win.FALSE ∧
    (Win.thread_setpriority Win.win32 ⟨101, 408⟩ 2 Win.demo).1 = 0 ∧
    (Win.thread_getpriority Win.win32 ⟨101, 408⟩ 0 Win.demo).1 ≠ 0 ∧
    (Posix.thread_setpriority Posix.linux 9 10 Posix.demo).1 = 0 ∧
    (Posix.thread_setpriority Posix.linux 8 10 Posix.demo).1 = Posix.ESRCH := by
  decide

/-- C6, the code at the failing input: the named levels of the pthread branch
are 1, 25, 40, 50, 60, 75, 99; normal is 50 and not 0, idle is 1 and not -15,
time critical is 99 and not 15, and six of the seven levels lie outside
[-15, 15].  thread_setpriority hands the value to the kernel unscaled: under
SCHED_RR the level 99 is accepted and read back as 99, the value -15 is
refused. -/
theorem thread_priority_posix_levels_outside_scale :
    Posix.thread_priority = [1, 25, 40, 50, 60, 75, 99] ∧
    Posix.THREAD_PRIORITY_NORMAL = 50 ∧
    Posix.THREAD_PRIORITY_IDLE = 1 ∧
    Posix.THREAD_PRIORITY_TIME_CRITICAL = 99 ∧
    Posix.thread_priority.filter (fun p => decide (-15 ≤ p ∧ p ≤ 15)) = [1] ∧
    (Posix.thread_setpriority Posix.linux 9 Posix.THREAD_PRIORITY_TIME_CRITICAL Posix.demo).1 = 0 ∧
    Posix.thread_getpriority Posix.linux 9 0
      (Posix.thread_setpriority Posix.linux 9 Posix.THREAD_PRIORITY_TIME_CRITICAL
        Posix.demo).2.1 = (0, 99) ∧
    (Posix.thread_setpriority Posix.linux 9 (-15) Posix.demo).1 = Posix.EINVAL := by
  decide
